import Mathlib

/-!
Shallow embedding of `benchmark.py` from the GBM-Benchmarks repository.

The script orchestrates: a deterministic train/validation/test split
(`Data.__init__`, via two calls to sklearn's `train_test_split` with a fixed
`random_state`), a metric evaluator (`eval`), a results table with lazily
created columns (`add_data` over a pandas DataFrame), hyperparameter
configuration (`configure_xgboost`), two trainer variants
(`train_xgboost_cpu` / `train_xgboost_gpu`), an experiment registry and the
driver's substring filter (`main`).

External collaborators (numpy's seeded permutation, the xgboost training
call, the wall clock, the dataset loaders) are modelled as explicit
deterministic functions or oracle parameters; everything written by the
repository itself is translated directly from the source.
-/

deriving instance DecidableEq for Except

namespace GBMBench

/-- A Python float value as it appears in this program: either an exact
rational literal/arithmetic result, or the square root produced by
`np.sqrt` (which leaves the rationals, so it is kept symbolically). -/
inductive PyFloat where
  | lit (q : ℚ)
  | sqrt (q : ℚ)
deriving DecidableEq, Repr

/-- Denotation of a `PyFloat` as a real number. -/
noncomputable def PyFloat.toReal : PyFloat → ℝ
  | .lit q => (q : ℝ)
  | .sqrt q => Real.sqrt (q : ℝ)

/-- `random_seed = 0`, the module-level global of `benchmark.py`. -/
def random_seed : Nat := 0

/-- Step of a linear congruential generator; drives the concrete model of
numpy's seeded shuffle. -/
def lcg (s : Nat) : Nat := (1664525 * s + 1013904223) % 4294967296

/-- Fuelled Fisher-Yates-style shuffle: at each step pick the element at
position `s % length`, emit it, and continue on the rest with the next
generator state. -/
def shuffleGo : Nat → Nat → List ℚ → List ℚ
  | _, _, [] => []
  | _, 0, _ => []
  | s, fuel + 1, l =>
    let i := s % l.length
    l.getD i 0 :: shuffleGo (lcg s) fuel (l.eraseIdx i)

/-- Model of numpy's pseudo-random permutation under a given seed, as used
by `sklearn.model_selection.train_test_split(random_state=...)`: a concrete
deterministic shuffle.  Only its determinism (a pure function of the seed
and the input) and the fact that it rearranges the input without changing
its length matter to the benchmark's code. -/
def shuffle (seed : Nat) (l : List ℚ) : List ℚ :=
  shuffleGo (lcg seed) l.length l

/-- Number of test samples chosen by sklearn's `train_test_split` for a
float `test_size`: `ceil(test_size * n_samples)`. -/
def nTestSamples (n : Nat) (test_size : ℚ) : Nat :=
  (⌈test_size * (n : ℚ)⌉).toNat

/-- Model of `sklearn.model_selection.train_test_split` on the label vector:
shuffle with the seed given by `random_state` (or by ambient `entropy` when
`random_state` is absent, modelling the library's fresh randomness), then
return `(train, test)` where the test part is the first
`ceil(test_size * n)` shuffled elements. -/
def train_test_split (l : List ℚ) (test_size : ℚ) (random_state : Option Nat)
    (entropy : Nat) : List ℚ × List ℚ :=
  let seed := random_state.getD entropy
  let p := shuffle seed l
  let nt := nTestSamples l.length test_size
  (p.drop nt, p.take nt)

/-- The `Data` object of `benchmark.py` after construction: dataset name,
task kind, metric kind and the three label subsets (the feature matrix is
split consistently alongside and carries no information the claims need,
so only the label vector is tracked; row counts are label counts). -/
structure Data where
  name : String
  task : String
  metric : String
  y_train : List ℚ
  y_val : List ℚ
  y_test : List ℚ
deriving DecidableEq, Repr

/-- `Data.__init__`: assert the three fractions sum to 1, split off the test
fraction of the whole, then split the remainder with
`test_size = validation_size / train_size`, and assert the three subset
sizes sum to the original row count.  Assertion failures are fatal, modelled
as `Except.error`.  `ent1`/`ent2` are the ambient entropy the two sklearn
calls would draw on if no `random_state` were passed; the source passes
`random_state=random_seed` to both. -/
def Data.init (y : List ℚ) (name task metric : String)
    (train_size validation_size test_size : ℚ) (ent1 ent2 : Nat) :
    Except String Data :=
  if train_size + validation_size + test_size = 1 then
    let s1 := train_test_split y test_size (some random_seed) ent1
    let s2 := train_test_split s1.1 (validation_size / train_size)
      (some random_seed) ent2
    if s2.1.length + s2.2.length + s1.2.length = y.length then
      .ok ⟨name, task, metric, s2.1, s2.2, s1.2⟩
    else .error "AssertionError: subset sizes"
  else .error "AssertionError: fraction sum"

/-- The default split fractions of `Data.__init__`:
`train_size=0.6, validation_size=0.2, test_size=0.2`. -/
def defaultSizes : ℚ × ℚ × ℚ := (3/5, 1/5, 1/5)

/-- The full label vector a `Data` was split from (up to order). -/
def Data.labels (d : Data) : List ℚ := d.y_train ++ d.y_val ++ d.y_test

/-- `sklearn.metrics.mean_squared_error`: mean of squared differences. -/
def mean_squared_error (ytrue ypred : List ℚ) : ℚ :=
  (List.zipWith (fun a b => (a - b) ^ 2) ytrue ypred).sum / (ytrue.length : ℚ)

/-- `sklearn.metrics.accuracy_score`: fraction of positions where the
prediction equals the true label. -/
def accuracy_score (ytrue ypred : List ℚ) : ℚ :=
  (List.zipWith (fun a b => if a = b then (1 : ℚ) else 0) ytrue ypred).sum /
    (ytrue.length : ℚ)

/-- `np.max` on a nonempty vector (the benchmark only applies it to the
nonempty test-label vector; numpy errors on empty input). -/
def npMax : List ℚ → ℚ
  | [] => 0
  | x :: xs => xs.foldl max x

/-- `eval(data, pred)` from `benchmark.py`: RMSE is `np.sqrt` of the mean
squared error; Accuracy thresholds predictions at 0.5 first when the task
is binary `"Classification"`; any other metric raises `ValueError`. -/
def eval (data : Data) (pred : List ℚ) : Except String PyFloat :=
  if data.metric = "RMSE" then
    .ok (.sqrt (mean_squared_error data.y_test pred))
  else if data.metric = "Accuracy" then
    let pred' := if data.task = "Classification" then
      pred.map (fun p => if (1 : ℚ)/2 < p then 1 else 0) else pred
    .ok (.lit (accuracy_score data.y_test pred'))
  else .error ("Unknown metric: " ++ data.metric)

/-! ### Association lists: Python dict updates and DataFrame cells -/

/-- Update the first binding of `k` in place, or append a new binding
(Python-dict / pandas-cell assignment semantics). -/
def alSet {κ α : Type} [DecidableEq κ] : List (κ × α) → κ → α → List (κ × α)
  | [], k, v => [(k, v)]
  | kv :: rest, k, v =>
    if kv.1 = k then (k, v) :: rest else kv :: alSet rest k v

/-- Look up the first binding of `k`. -/
def alGet {κ α : Type} [DecidableEq κ] : List (κ × α) → κ → Option α
  | [], _ => none
  | kv :: rest, k => if kv.1 = k then some kv.2 else alGet rest k

/-- A Python value stored in the xgboost parameter dict. -/
inductive PVal where
  | str (s : String)
  | num (q : ℚ)
deriving DecidableEq, Repr

/-- The xgboost parameter dict, as an insertion-ordered association list. -/
abbrev Params := List (String × PVal)

/-- Python dict assignment `params[k] = v` / `params.update`. -/
def dictSet (p : Params) (k : String) (v : PVal) : Params := alSet p k v

/-- Python dict lookup. -/
def dictGet (p : Params) (k : String) : Option PVal := alGet p k

/-- `configure_xgboost(data, params)`: update the dict with
`max_depth=0, grow_policy='lossguide', max_leaves=2**6`, then set the
objective by task kind (injecting `num_class = np.max(data.y_test) + 1` for
the multiclass task); an unknown task raises `ValueError`. -/
def configure_xgboost (data : Data) (params : Params) : Except String Params :=
  let p := dictSet (dictSet (dictSet params "max_depth" (.num 0))
    "grow_policy" (.str "lossguide")) "max_leaves" (.num (2 ^ 6))
  if data.task = "Regression" then
    .ok (dictSet p "objective" (.str "reg:linear"))
  else if data.task = "Multiclass classification" then
    .ok (dictSet (dictSet p "objective" (.str "multi:softmax"))
      "num_class" (.num (npMax data.y_test + 1)))
  else if data.task = "Classification" then
    .ok (dictSet p "objective" (.str "binary:logistic"))
  else .error ("Unknown task: " ++ data.task)

/-- Cell key of the results DataFrame: (row label, dataset name, field). -/
abbrev CellKey := String × String × String

/-- The pandas DataFrame accumulated by the benchmark: row labels in order,
two-level column keys in order, and the written cells (unwritten cells of an
enlarged frame are NaN in pandas and absent here). -/
structure DF where
  index : List String
  cols : List (String × String)
  cells : List (CellKey × PyFloat)
deriving DecidableEq, Repr

/-- The empty DataFrame `pd.DataFrame()` the driver starts from. -/
def DF.empty : DF := ⟨[], [], []⟩

/-- `df.insert(loc, column, value)`: raises if the column already exists,
otherwise places the column key at position `loc` and gives every existing
row the default value. -/
def DF.insertCol (df : DF) (loc : Nat) (c : String × String) (v : PyFloat) :
    Except String DF :=
  if c ∈ df.cols then .error "cannot insert, already exists"
  else .ok { df with
    cols := df.cols.take loc ++ c :: df.cols.drop loc,
    cells := df.cells ++ df.index.map (fun r => ((r, c.1, c.2), v)) }

/-- `df.at[row, col] = v`: set one cell, enlarging the frame with the new
row and/or column label when absent (other cells of a fresh row or column
stay NaN, i.e. unwritten). -/
def DF.atSet (df : DF) (r : String) (c : String × String) (v : PyFloat) : DF :=
  { index := if r ∈ df.index then df.index else df.index ++ [r],
    cols := if c ∈ df.cols then df.cols else df.cols ++ [c],
    cells := alSet df.cells (r, c.1, c.2) v }

/-- Read one cell of the frame (`none` = NaN / never written). -/
def DF.lookupCell (df : DF) (r : String) (c : String × String) :
    Option PyFloat :=
  alGet df.cells (r, c.1, c.2)

/-- `add_data(df, algorithm, data, elapsed, metric)`: try to append the
`(name, 'Time(s)')` and `(name, metric)` columns with default `float(0)`;
the bare `except: pass` swallows any failure of either insert (and a failure
of the first skips the second); then set the two cells of the algorithm's
row. -/
def add_data (df : DF) (algorithm : String) (data : Data)
    (elapsed metric : PyFloat) : DF :=
  let time_col := (data.name, "Time(s)")
  let metric_col := (data.name, data.metric)
  let df1 :=
    match df.insertCol df.cols.length time_col (.lit 0) with
    | .error _ => df
    | .ok dfA =>
      match dfA.insertCol dfA.cols.length metric_col (.lit 0) with
      | .error _ => dfA
      | .ok dfB => dfB
  (df1.atSet algorithm time_col elapsed).atSet algorithm metric_col metric

/-! ### Trainers, experiments and the driver -/

/-- Parsed command-line arguments of the driver. -/
structure Args where
  rows : Option Nat
  num_rounds : Nat
  datasets : String

/-- Oracle for the external `xgb.train` call together with the wall clock:
from the parameter dict and the round count it yields the elapsed seconds
and the prediction vector on the test set. -/
abbrev TrainOracle := Params → Nat → ℚ × List ℚ

/-- `run_xgboost(data, params, args)`: train (externally), time the call,
predict on the test set and evaluate the metric. -/
def run_xgboost (bst : TrainOracle) (data : Data) (params : Params)
    (args : Args) : Except String (ℚ × PyFloat) :=
  let r := bst params args.num_rounds
  match eval data r.2 with
  | .ok m => .ok (r.1, m)
  | .error e => .error e

/-- `train_xgboost_cpu`: configure with `tree_method='hist'`, run, record
under the label `"xgb-cpu-hist"`. -/
def train_xgboost_cpu (bst : TrainOracle) (data : Data) (df : DF)
    (args : Args) : Except String DF := do
  let params ← configure_xgboost data [("tree_method", .str "hist")]
  let r ← run_xgboost bst data params args
  .ok (add_data df "xgb-cpu-hist" data (.lit r.1) r.2)

/-- `train_xgboost_gpu`: configure with `tree_method='gpu_hist'`, run,
record under the label `"xgb-gpu-hist"`. -/
def train_xgboost_gpu (bst : TrainOracle) (data : Data) (df : DF)
    (args : Args) : Except String DF := do
  let params ← configure_xgboost data [("tree_method", .str "gpu_hist")]
  let r ← run_xgboost bst data params args
  .ok (add_data df "xgb-gpu-hist" data (.lit r.1) r.2)

/-- The common four-step trainer the spec describes, parameterized by the
tree-construction backend and the algorithm label; the two source trainers
are claimed to be this procedure at `('hist', "xgb-cpu-hist")` and
`('gpu_hist', "xgb-gpu-hist")`. -/
def trainerSpec (backend label : String) (bst : TrainOracle) (data : Data)
    (df : DF) (args : Args) : Except String DF := do
  let params ← configure_xgboost data [("tree_method", .str backend)]
  let r ← run_xgboost bst data params args
  .ok (add_data df label data (.lit r.1) r.2)

/-- An entry of the experiment registry: external loader plus display name,
task kind and metric kind. -/
structure Experiment where
  data_func : Option Nat → List ℚ
  name : String
  task : String
  metric : String

/-- The external `ml_dataset_loader` module: one label-vector loader per
dataset, each taking the optional row cap. -/
structure Loaders where
  get_year : Option Nat → List ℚ
  get_synthetic_regression : Option Nat → List ℚ
  get_higgs : Option Nat → List ℚ
  get_cover_type : Option Nat → List ℚ
  get_bosch : Option Nat → List ℚ
  get_airline : Option Nat → List ℚ

/-- The fixed experiment registry of `benchmark.py`. -/
def experiments (L : Loaders) : List Experiment :=
  [⟨L.get_year, "YearPredictionMSD", "Regression", "RMSE"⟩,
   ⟨L.get_synthetic_regression, "Synthetic", "Regression", "RMSE"⟩,
   ⟨L.get_higgs, "Higgs", "Classification", "Accuracy"⟩,
   ⟨L.get_cover_type, "Cover Type", "Multiclass classification", "Accuracy"⟩,
   ⟨L.get_bosch, "Bosch", "Classification", "Accuracy"⟩,
   ⟨L.get_airline, "Airline", "Classification", "Accuracy"⟩]

/-- `Experiment.run`: load the (row-limited) data, build the split with the
default fractions, then run the CPU trainer followed by the GPU trainer on
the shared table. -/
def Experiment.run (bst : TrainOracle) (e : Experiment) (df : DF)
    (args : Args) : Except String DF := do
  let y := e.data_func args.rows
  let data ← Data.init y e.name e.task e.metric defaultSizes.1
    defaultSizes.2.1 defaultSizes.2.2 0 0
  let df1 ← train_xgboost_cpu bst data df args
  train_xgboost_gpu bst data df1 args

/-- The default of `--datasets`: every registry name followed by a comma,
as built by `main`'s accumulation loop. -/
def all_dataset_names (L : Loaders) : String :=
  (experiments L).foldl (fun acc e => acc ++ e.name ++ ",") ""

/-- Python's `needle in haystack` on strings: substring containment. -/
def strContainsB (hay pat : String) : Bool :=
  decide (pat.data <:+: hay.data)

/-- The driver's filter: keep the experiments whose name occurs as a
substring of the `--datasets` option string. -/
def selectExperiments (L : Loaders) (datasets : String) : List Experiment :=
  (experiments L).filter (fun e => strContainsB datasets e.name)

/-- A concrete multiclass `Data` used to instantiate `C6_hyperparameters`. -/
def mcData : Data :=
  ⟨"Cover Type", "Multiclass classification", "Accuracy", [], [], [0, 1]⟩

/-- A concrete prior table state used to instantiate `C3_add_data_behavior`:
one earlier row under a different dataset's column. -/
def c3df : DF :=
  ⟨["old"], [("Other", "Time(s)")], [(("old", "Other", "Time(s)"), .lit 7)]⟩

/-- A concrete regression dataset record used by the table witnesses. -/
def c3d : Data := ⟨"Synthetic", "Regression", "RMSE", [], [], []⟩

/-- A concrete table state with the time column present and the metric
column absent, used to instantiate `C10_bare_except_handler`. -/
def c10df : DF :=
  ⟨["old"], [("Synthetic", "Time(s)")],
    [(("old", "Synthetic", "Time(s)"), .lit 1)]⟩

/-- The CPU parameter dict built for a regression dataset. -/
def pCpu : Params :=
  [("tree_method", .str "hist"), ("max_depth", .num 0),
    ("grow_policy", .str "lossguide"), ("max_leaves", .num (2 ^ 6)),
    ("objective", .str "reg:linear")]

/-- The GPU parameter dict built for a regression dataset. -/
def pGpu : Params :=
  [("tree_method", .str "gpu_hist"), ("max_depth", .num 0),
    ("grow_policy", .str "lossguide"), ("max_leaves", .num (2 ^ 6)),
    ("objective", .str "reg:linear")]

/-- A concrete stand-in for the external dataset loaders: ten rows. -/
def wLoad : Option Nat → List ℚ := fun _ => [0, 1, 2, 3, 4, 5, 6, 7, 8, 9]

/-- Concrete loaders for the witness runs. -/
def wLoaders : Loaders := ⟨wLoad, wLoad, wLoad, wLoad, wLoad, wLoad⟩

/-- A concrete training oracle: one second elapsed, constant predictions. -/
def wOracle : TrainOracle := fun _ _ => (1, [0, 0])

/-- Concrete parsed arguments selecting only the Synthetic experiment. -/
def wArgs : Args := ⟨none, 3, "Synthetic"⟩

/-- The Synthetic registry entry over the witness loaders. -/
def wExp : Experiment :=
  ⟨wLoaders.get_synthetic_regression, "Synthetic", "Regression", "RMSE"⟩

/-- The split the witness run builds from the ten-row dataset. -/
def wData : Data :=
  ⟨"Synthetic", "Regression", "RMSE", [8, 7, 1, 6, 2], [0, 5, 4], [3, 9]⟩

/-- The table after the witness run's CPU trainer. -/
def wDF1 : DF :=
  ⟨["xgb-cpu-hist"], [("Synthetic", "Time(s)"), ("Synthetic", "RMSE")],
    [(("xgb-cpu-hist", "Synthetic", "Time(s)"), .lit 1),
      (("xgb-cpu-hist", "Synthetic", "RMSE"), .sqrt 45)]⟩

/-- The table after the witness run's GPU trainer. -/
def wDF2 : DF :=
  ⟨["xgb-cpu-hist", "xgb-gpu-hist"],
    [("Synthetic", "Time(s)"), ("Synthetic", "RMSE")],
    [(("xgb-cpu-hist", "Synthetic", "Time(s)"), .lit 1),
      (("xgb-cpu-hist", "Synthetic", "RMSE"), .sqrt 45),
      (("xgb-gpu-hist", "Synthetic", "Time(s)"), .lit 1),
      (("xgb-gpu-hist", "Synthetic", "RMSE"), .sqrt 45)]⟩

/-! ### Helper lemmas -/

theorem shuffleGo_length (fuel : Nat) : ∀ (s : Nat) (l : List ℚ),
    l.length ≤ fuel → (shuffleGo s fuel l).length = l.length := by
  induction fuel with
  | zero =>
    intro s l h
    cases l with
    | nil => rfl
    | cons x xs => simp at h
  | succ n ih =>
    intro s l h
    cases l with
    | nil => rfl
    | cons x xs =>
      have hlt : s % (x :: xs).length < (x :: xs).length :=
        Nat.mod_lt _ (by simp)
      have herase : ((x :: xs).eraseIdx (s % (x :: xs).length)).length =
          (x :: xs).length - 1 := by
        rw [List.length_eraseIdx, if_pos hlt]
      have hpos : 0 < (x :: xs).length := by simp
      have hle : ((x :: xs).eraseIdx (s % (x :: xs).length)).length ≤ n := by
        rw [herase]
        simp only [List.length_cons] at h ⊢
        omega
      have hstep : shuffleGo s (n + 1) (x :: xs) =
          (x :: xs).getD (s % (x :: xs).length) 0 ::
            shuffleGo (lcg s) n
              ((x :: xs).eraseIdx (s % (x :: xs).length)) := rfl
      rw [hstep, List.length_cons, ih _ _ hle, herase]
      omega

theorem shuffle_length (seed : Nat) (l : List ℚ) :
    (shuffle seed l).length = l.length :=
  shuffleGo_length l.length (lcg seed) l (Nat.le_refl _)

theorem train_test_split_lengths (l : List ℚ) (q : ℚ) (rs : Option Nat)
    (e : Nat) : (train_test_split l q rs e).1.length +
      (train_test_split l q rs e).2.length = l.length := by
  simp only [train_test_split]
  rw [List.length_drop, List.length_take, shuffle_length]
  omega

theorem Data.init_ok_of_sum_one (y : List ℚ) (name task metric : String)
    (tr vl te : ℚ) (e1 e2 : Nat) (h : tr + vl + te = 1) :
    Data.init y name task metric tr vl te e1 e2 =
      .ok ⟨name, task, metric,
        (train_test_split (train_test_split y te (some random_seed) e1).1
          (vl / tr) (some random_seed) e2).1,
        (train_test_split (train_test_split y te (some random_seed) e1).1
          (vl / tr) (some random_seed) e2).2,
        (train_test_split y te (some random_seed) e1).2⟩ := by
  have h2 := train_test_split_lengths y te (some random_seed) e1
  have h3 := train_test_split_lengths
    (train_test_split y te (some random_seed) e1).1 (vl / tr)
    (some random_seed) e2
  simp only [Data.init, if_pos h]
  rw [if_pos (by omega)]

theorem alGet_alSet_self {κ α : Type} [DecidableEq κ]
    (l : List (κ × α)) (k : κ) (v : α) : alGet (alSet l k v) k = some v := by
  induction l with
  | nil => simp [alSet, alGet]
  | cons kv rest ih =>
    by_cases h : kv.1 = k
    · simp [alSet, alGet, h]
    · simp [alSet, alGet, h, ih]

theorem alGet_alSet_ne {κ α : Type} [DecidableEq κ]
    (l : List (κ × α)) (k k' : κ) (v : α) (h : k' ≠ k) :
    alGet (alSet l k v) k' = alGet l k' := by
  have hks : k ≠ k' := Ne.symm h
  induction l with
  | nil => simp [alSet, alGet, hks]
  | cons kv rest ih =>
    by_cases hk : kv.1 = k <;> by_cases hk' : kv.1 = k' <;>
      simp_all [alSet, alGet]

theorem alGet_append_of_none {κ α : Type} [DecidableEq κ]
    (l l2 : List (κ × α)) (k : κ) (h : alGet l k = none) :
    alGet (l ++ l2) k = alGet l2 k := by
  induction l with
  | nil => rfl
  | cons kv rest ih =>
    by_cases hk : kv.1 = k
    · simp [alGet, hk] at h
    · simp only [alGet, if_neg hk] at h
      rw [List.cons_append]
      simp only [alGet, if_neg hk]
      exact ih h

theorem alGet_append_of_some {κ α : Type} [DecidableEq κ]
    (l l2 : List (κ × α)) (k : κ) (v : α) (h : alGet l k = some v) :
    alGet (l ++ l2) k = some v := by
  induction l with
  | nil => simp [alGet] at h
  | cons kv rest ih =>
    by_cases hk : kv.1 = k
    · simp only [alGet, if_pos hk] at h ⊢
      simpa [List.cons_append, alGet, if_pos hk] using h
    · simp only [alGet, if_neg hk] at h
      simp only [List.cons_append, alGet, if_neg hk]
      exact ih h

theorem alGet_rowFill_mem (l : List String) (a b : String) (v : PyFloat)
    (r : String) (h : r ∈ l) :
    alGet (l.map fun x => ((x, a, b), v)) (r, a, b) = some v := by
  induction l with
  | nil => simp at h
  | cons x xs ih =>
    rcases List.mem_cons.mp h with h1 | h1
    · subst h1
      simp [alGet]
    · by_cases hx : x = r
      · subst hx
        simp [alGet]
      · simpa [alGet, hx] using ih h1

theorem alGet_rowFill_ne_col (l : List String) (a b a' b' : String)
    (v : PyFloat) (r : String) (h : (a, b) ≠ (a', b')) :
    alGet (l.map fun x => ((x, a, b), v)) (r, a', b') = none := by
  induction l with
  | nil => rfl
  | cons x xs ih =>
    have hne : ((x, a, b) : CellKey) ≠ (r, a', b') := by
      intro hcon
      apply h
      rw [Prod.mk.injEq] at hcon ⊢
      have := hcon.2
      rw [Prod.mk.injEq] at this
      exact ⟨this.1, this.2⟩
    simpa [alGet, hne] using ih

theorem dictGet_dictSet_self (p : Params) (k : String) (v : PVal) :
    dictGet (dictSet p k v) k = some v := alGet_alSet_self p k v

theorem dictGet_dictSet_ne (p : Params) (k k' : String) (v : PVal)
    (h : k' ≠ k) : dictGet (dictSet p k v) k' = dictGet p k' :=
  alGet_alSet_ne p k k' v h

theorem zipWith_sq_self (y : List ℚ) :
    (List.zipWith (fun a b => (a - b) ^ 2) y y).sum = 0 := by
  induction y with
  | nil => rfl
  | cons x xs ih => simp [ih]

theorem mean_squared_error_self (y : List ℚ) :
    mean_squared_error y y = 0 := by
  simp [mean_squared_error, zipWith_sq_self]

theorem zipWith_eq_self (y : List ℚ) :
    (List.zipWith (fun a b => if a = b then (1 : ℚ) else 0) y y).sum =
      (y.length : ℚ) := by
  induction y with
  | nil => rfl
  | cons x xs ih =>
    simp [ih]
    ring

theorem accuracy_score_self (y : List ℚ) (h : y ≠ []) :
    accuracy_score y y = 1 := by
  have hlen : (y.length : ℚ) ≠ 0 := by
    simp [List.length_eq_zero]
    exact h
  simp [accuracy_score, zipWith_eq_self, div_self hlen]

theorem nTestSamples_eq (n : Nat) (q : ℚ) (k : Nat)
    (h : (⌈q * (n : ℚ)⌉ : ℤ) = (k : ℤ)) : nTestSamples n q = k := by
  unfold nTestSamples
  rw [h, Int.toNat_natCast]

theorem ceil_eq_of_bounds (q : ℚ) (k : ℤ) (h1 : (k : ℚ) - 1 < q)
    (h2 : q ≤ (k : ℚ)) : (⌈q⌉ : ℤ) = k := by
  rw [Int.ceil_eq_iff]
  exact ⟨h1, h2⟩

theorem train_test_split_eval (l p : List ℚ) (q : ℚ) (s e : Nat) (k : Nat)
    (hp : shuffle s l = p) (hk : nTestSamples l.length q = k) :
    train_test_split l q (some s) e = (p.drop k, p.take k) := by
  simp [train_test_split, hp, hk]

theorem DF.insertCol_end_of_not_mem (df : DF) (c : String × String)
    (v : PyFloat) (h : c ∉ df.cols) :
    df.insertCol df.cols.length c v =
      .ok ⟨df.index, df.cols ++ [c],
        df.cells ++ df.index.map (fun r => ((r, c.1, c.2), v))⟩ := by
  simp only [DF.insertCol, if_neg h]
  rw [List.take_length, List.drop_length]

theorem DF.insertCol_err_of_mem (df : DF) (loc : Nat) (c : String × String)
    (v : PyFloat) (h : c ∈ df.cols) :
    df.insertCol loc c v = .error "cannot insert, already exists" := by
  simp [DF.insertCol, h]

theorem DF.lookupCell_atSet_self (df : DF) (r : String) (c : String × String)
    (v : PyFloat) : (df.atSet r c v).lookupCell r c = some v :=
  alGet_alSet_self df.cells (r, c.1, c.2) v

theorem DF.lookupCell_atSet_ne (df : DF) (r r' : String)
    (c c' : String × String) (v : PyFloat)
    (h : ((r', c'.1, c'.2) : CellKey) ≠ (r, c.1, c.2)) :
    (df.atSet r c v).lookupCell r' c' = df.lookupCell r' c' :=
  alGet_alSet_ne df.cells (r, c.1, c.2) (r', c'.1, c'.2) v h

theorem DF.atSet_cols_of_mem (df : DF) (r : String) (c : String × String)
    (v : PyFloat) (h : c ∈ df.cols) : (df.atSet r c v).cols = df.cols := by
  simp [DF.atSet, h]

theorem DF.atSet_cols_of_not_mem (df : DF) (r : String)
    (c : String × String) (v : PyFloat) (h : c ∉ df.cols) :
    (df.atSet r c v).cols = df.cols ++ [c] := by
  simp [DF.atSet, h]

theorem DF.atSet_index (df : DF) (r : String) (c : String × String)
    (v : PyFloat) :
    (df.atSet r c v).index =
      if r ∈ df.index then df.index else df.index ++ [r] := rfl

/-- Shape of `add_data` when neither of the dataset's two columns exists
yet: both inserts succeed (zero-filling every existing row), then the two
cells of the algorithm's row are set. -/
theorem add_data_of_fresh (df : DF) (alg : String) (d : Data)
    (t m : PyFloat) (htc : (d.name, "Time(s)") ∉ df.cols)
    (hmc : (d.name, d.metric) ∉ df.cols) (hTm : d.metric ≠ "Time(s)") :
    add_data df alg d t m =
      ((DF.mk df.index (df.cols ++ [(d.name, "Time(s)"), (d.name, d.metric)])
        ((df.cells ++ df.index.map (fun r => ((r, d.name, "Time(s)"),
            PyFloat.lit 0))) ++ df.index.map (fun r => ((r, d.name, d.metric),
            PyFloat.lit 0)))).atSet alg (d.name, "Time(s)") t).atSet alg
        (d.name, d.metric) m := by
  have hne : ((d.name, d.metric) : String × String) ≠ (d.name, "Time(s)") := by
    intro hcon
    exact hTm (congrArg Prod.snd hcon)
  have h1 := DF.insertCol_end_of_not_mem df (d.name, "Time(s)")
    (PyFloat.lit 0) htc
  simp only [add_data, h1]
  have hmc2 : ((d.name, d.metric) : String × String) ∉
      df.cols ++ [(d.name, "Time(s)")] := by
    simp [hmc, hne]
  have h2 := DF.insertCol_end_of_not_mem
    ⟨df.index, df.cols ++ [(d.name, "Time(s)")],
      df.cells ++ df.index.map (fun r => ((r, d.name, "Time(s)"),
        PyFloat.lit 0))⟩ (d.name, d.metric) (PyFloat.lit 0) hmc2
  simp only at h2
  simp only [h2, List.append_assoc, List.cons_append, List.nil_append]

/-- Shape of `add_data` when the time column already exists: the first
insert raises, the bare handler discards the error and skips the second
insert, and only the two cell writes happen. -/
theorem add_data_of_time_col_mem (df : DF) (alg : String) (d : Data)
    (t m : PyFloat) (htc : (d.name, "Time(s)") ∈ df.cols) :
    add_data df alg d t m =
      (df.atSet alg (d.name, "Time(s)") t).atSet alg (d.name, d.metric) m := by
  simp only [add_data,
    DF.insertCol_err_of_mem df df.cols.length (d.name, "Time(s)")
      (PyFloat.lit 0) htc]

/-! ### Claim theorems -/

/-- C8: the split is deterministic.  `Data.__init__` passes the fixed
`random_state=random_seed` to both `train_test_split` calls, so the result
is independent of the ambient entropy the library would otherwise draw on:
two runs on the same dataset and fractions produce identical train,
validation and test subsets, and `train_test_split` itself ignores the
entropy whenever a concrete `random_state` is supplied. -/
theorem C8_split_deterministic :
    (∀ (y : List ℚ) (name task metric : String) (tr vl te : ℚ)
      (e1 e2 e1' e2' : Nat),
      Data.init y name task metric tr vl te e1 e2 =
        Data.init y name task metric tr vl te e1' e2') ∧
    (∀ (l : List ℚ) (q : ℚ) (s e e' : Nat),
      train_test_split l q (some s) e = train_test_split l q (some s) e') :=
  ⟨fun _ _ _ _ _ _ _ _ _ _ _ => rfl, fun _ _ _ _ _ => rfl⟩

/-- C7: `Data.__init__` asserts that the three fractions sum to 1 and that
the three subset row counts sum to the original row count.  When the
fractions sum to 1 the construction succeeds and the counts partition the
rows (the second assertion's failure branch is unreachable); when they do
not, construction is a fatal assertion failure, not a recoverable value. -/
theorem C7_split_assertions (y : List ℚ) (name task metric : String)
    (tr vl te : ℚ) (e1 e2 : Nat) :
    (tr + vl + te = 1 →
      ∃ d, Data.init y name task metric tr vl te e1 e2 = .ok d ∧
        d.y_train.length + d.y_val.length + d.y_test.length = y.length) ∧
    (tr + vl + te ≠ 1 →
      Data.init y name task metric tr vl te e1 e2 =
        .error "AssertionError: fraction sum") := by
  constructor
  · intro h
    refine ⟨_, Data.init_ok_of_sum_one y name task metric tr vl te e1 e2 h, ?_⟩
    have h2 := train_test_split_lengths y te (some random_seed) e1
    have h3 := train_test_split_lengths
      (train_test_split y te (some random_seed) e1).1 (vl / tr)
      (some random_seed) e2
    dsimp only
    omega
  · intro h
    simp only [Data.init, if_neg h]

/-- C7 witness: with the default fractions on a three-row dataset the
constructor succeeds and the subset sizes partition the rows. -/
theorem C7_split_assertions_witness :
    ∃ d, Data.init [0, 1, 2] "Synthetic" "Regression" "RMSE"
        (3/5) (1/5) (1/5) 0 0 = .ok d ∧
      d.y_train.length + d.y_val.length + d.y_test.length =
        ([0, 1, 2] : List ℚ).length :=
  (C7_split_assertions [0, 1, 2] "Synthetic" "Regression" "RMSE"
    (3/5) (1/5) (1/5) 0 0).1 (by norm_num)

/-- C1 (code evaluated at the failing input): on a 15-row dataset with the
default fractions `(0.6, 0.2, 0.2)`, the code produces 8 train, 4
validation and 3 test rows.  The claimed behavior (validation fraction
rescaled to the remaining pool, so 9/3/3) does not hold: the second
`train_test_split` is called with `test_size = validation_size/train_size
= 1/3` of the remaining 12 rows instead of
`validation_size/(1 - test_size) = 1/4`. -/
theorem C1_split_counts_eval :
    (Data.init [0, 1, 2, 3, 4, 5, 6, 7, 8, 9, 10, 11, 12, 13, 14] "Synthetic"
        "Regression" "RMSE" (3/5) (1/5) (1/5) 0 0).map
      (fun d => (d.y_train.length, d.y_val.length, d.y_test.length)) =
      .ok (8, 4, 3) := by
  rw [Data.init_ok_of_sum_one _ _ _ _ _ _ _ _ _ (by norm_num)]
  rw [train_test_split_eval
    [0, 1, 2, 3, 4, 5, 6, 7, 8, 9, 10, 11, 12, 13, 14]
    [13, 4, 6, 10, 5, 2, 3, 0, 8, 12, 9, 1, 7, 11, 14]
    (1/5) random_seed 0 3 (by decide)
    (nTestSamples_eq _ _ _ (by norm_num))]
  dsimp only
  rw [train_test_split_eval
    (([13, 4, 6, 10, 5, 2, 3, 0, 8, 12, 9, 1, 7, 11, 14] :
      List ℚ).drop 3)
    [9, 8, 7, 2, 0, 5, 14, 1, 11, 3, 12, 10]
    ((1/5) / (3/5)) random_seed 0 4 (by decide)
    (nTestSamples_eq _ _ _ (by norm_num))]
  decide

/-- C4: `eval` succeeds exactly on the metric kinds `"RMSE"` and
`"Accuracy"`, and otherwise raises an error naming the unknown metric;
`configure_xgboost` succeeds exactly on the task kinds `"Regression"`,
`"Multiclass classification"` and `"Classification"`, and otherwise raises
an error naming the unknown task. -/
theorem C4_unknown_kind_errors (d : Data) (pred : List ℚ) (params : Params) :
    ((∃ v, eval d pred = .ok v) ↔
      d.metric = "RMSE" ∨ d.metric = "Accuracy") ∧
    (¬(d.metric = "RMSE" ∨ d.metric = "Accuracy") →
      eval d pred = .error ("Unknown metric: " ++ d.metric)) ∧
    ((∃ p, configure_xgboost d params = .ok p) ↔
      d.task = "Regression" ∨ d.task = "Multiclass classification" ∨
        d.task = "Classification") ∧
    (¬(d.task = "Regression" ∨ d.task = "Multiclass classification" ∨
        d.task = "Classification") →
      configure_xgboost d params = .error ("Unknown task: " ++ d.task)) := by
  refine ⟨?_, ?_, ?_, ?_⟩
  · constructor
    · rintro ⟨v, hv⟩
      unfold eval at hv
      split_ifs at hv with h1 h2 h3 <;>
        first
          | exact Or.inl h1
          | exact Or.inr h2
    · intro hor
      unfold eval
      by_cases h1 : d.metric = "RMSE"
      · rw [if_pos h1]
        exact ⟨_, rfl⟩
      · rcases hor with h | h
        · exact absurd h h1
        · rw [if_neg h1, if_pos h]
          exact ⟨_, rfl⟩
  · intro h
    push_neg at h
    simp [eval, h.1, h.2]
  · constructor
    · rintro ⟨p, hp⟩
      unfold configure_xgboost at hp
      split_ifs at hp with h1 h2 h3 <;>
        first
          | exact Or.inl h1
          | exact Or.inr (Or.inl h2)
          | exact Or.inr (Or.inr h3)
    · intro hor
      unfold configure_xgboost
      by_cases h1 : d.task = "Regression"
      · rw [if_pos h1]
        exact ⟨_, rfl⟩
      · rw [if_neg h1]
        by_cases h2 : d.task = "Multiclass classification"
        · rw [if_pos h2]
          exact ⟨_, rfl⟩
        · rw [if_neg h2]
          rcases hor with h | h | h
          · exact absurd h h1
          · exact absurd h h2
          · rw [if_pos h]
            exact ⟨_, rfl⟩
  · intro h
    push_neg at h
    simp [configure_xgboost, h.1, h.2.1, h.2.2]

/-- C4 witness: a metric kind `"F1"` and a task kind `"Ranking"` are fatal
errors with messages naming the unknown value, while the known kinds
succeed. -/
theorem C4_unknown_kind_errors_witness :
    eval ⟨"D", "Ranking", "F1", [], [], []⟩ [] =
        .error "Unknown metric: F1" ∧
      configure_xgboost ⟨"D", "Ranking", "F1", [], [], []⟩ [] =
        .error "Unknown task: Ranking" ∧
      (∃ v, eval ⟨"D", "Regression", "RMSE", [], [], []⟩ [] = .ok v) :=
  ⟨(C4_unknown_kind_errors ⟨"D", "Ranking", "F1", [], [], []⟩ [] []).2.1
      (by simp),
    (C4_unknown_kind_errors ⟨"D", "Ranking", "F1", [], [], []⟩ [] []).2.2.2
      (by simp),
    (C4_unknown_kind_errors ⟨"D", "Regression", "RMSE", [], [], []⟩ []
      []).1.mpr (Or.inl rfl)⟩

/-- C5: the metric evaluator.  For metric kind RMSE, `eval` returns the
square root of the mean squared error (so predictions equal to the truth
give 0.0).  For metric kind Accuracy with the binary task
`"Classification"`, each continuous prediction is first thresholded at 0.5
(0.49 becomes class 0, 0.51 becomes class 1) and the fraction of matches is
returned; for any other task the predicted classes are compared directly,
and all-correct predictions give 1.0. -/
theorem C5_eval_metrics (d : Data) (pred : List ℚ) :
    (d.metric = "RMSE" →
      eval d pred = .ok (.sqrt (mean_squared_error d.y_test pred)) ∧
      (pred = d.y_test → eval d pred = .ok (.sqrt 0) ∧
        PyFloat.toReal (.sqrt 0) = 0)) ∧
    (d.metric = "Accuracy" →
      (d.task = "Classification" →
        eval d pred = .ok (.lit (accuracy_score d.y_test
          (pred.map (fun p => if (1 : ℚ)/2 < p then 1 else 0)))) ∧
        (fun p => if (1 : ℚ)/2 < p then (1 : ℚ) else 0) (49/100) = 0 ∧
        (fun p => if (1 : ℚ)/2 < p then (1 : ℚ) else 0) (51/100) = 1) ∧
      (d.task ≠ "Classification" →
        eval d pred = .ok (.lit (accuracy_score d.y_test pred)) ∧
        (pred = d.y_test → d.y_test ≠ [] →
          eval d pred = .ok (.lit 1)))) := by
  constructor
  · intro hm
    have h1 : eval d pred = .ok (.sqrt (mean_squared_error d.y_test pred)) := by
      simp [eval, hm]
    refine ⟨h1, fun hp => ⟨?_, ?_⟩⟩
    · rw [h1, hp, mean_squared_error_self]
    · simp [PyFloat.toReal]
  · intro hm
    have hm' : d.metric ≠ "RMSE" := by
      rw [hm]
      decide
    constructor
    · intro ht
      refine ⟨?_, by norm_num, by norm_num⟩
      simp [eval, hm, hm', ht]
    · intro ht
      have h1 : eval d pred = .ok (.lit (accuracy_score d.y_test pred)) := by
        simp [eval, hm, hm', ht]
      refine ⟨h1, fun hp hne => ?_⟩
      rw [h1, hp, accuracy_score_self _ hne]

/-- C5 witness: concrete evaluations — perfect regression predictions give
RMSE `sqrt 0`, thresholding sends 0.49 to class 0 and 0.51 to class 1, and
perfect multiclass predictions give accuracy 1. -/
theorem C5_eval_metrics_witness :
    eval ⟨"D", "Regression", "RMSE", [], [], [1, 2]⟩ [1, 2] =
        .ok (.sqrt 0) ∧
      (fun p => if (1 : ℚ)/2 < p then (1 : ℚ) else 0) (49/100) = 0 ∧
      (fun p => if (1 : ℚ)/2 < p then (1 : ℚ) else 0) (51/100) = 1 ∧
      eval ⟨"D", "Multiclass classification", "Accuracy", [], [], [0, 2]⟩
        [0, 2] = .ok (.lit 1) :=
  ⟨(((C5_eval_metrics ⟨"D", "Regression", "RMSE", [], [], [1, 2]⟩
      [1, 2]).1 rfl).2 rfl).1,
    (((C5_eval_metrics ⟨"D", "Classification", "Accuracy", [], [], []⟩
      []).2 rfl).1 rfl).2.1,
    (((C5_eval_metrics ⟨"D", "Classification", "Accuracy", [], [], []⟩
      []).2 rfl).1 rfl).2.2,
    (((C5_eval_metrics
      ⟨"D", "Multiclass classification", "Accuracy", [], [], [0, 2]⟩
      [0, 2]).2 rfl).2 (by decide)).2 rfl (by decide)⟩

theorem cfgBase_max_depth (params : Params) :
    dictGet (dictSet (dictSet (dictSet params "max_depth" (.num 0))
      "grow_policy" (.str "lossguide")) "max_leaves" (.num (2 ^ 6)))
      "max_depth" = some (.num 0) := by
  rw [dictGet_dictSet_ne _ "max_leaves" "max_depth" _ (by decide),
    dictGet_dictSet_ne _ "grow_policy" "max_depth" _ (by decide),
    dictGet_dictSet_self]

theorem cfgBase_grow_policy (params : Params) :
    dictGet (dictSet (dictSet (dictSet params "max_depth" (.num 0))
      "grow_policy" (.str "lossguide")) "max_leaves" (.num (2 ^ 6)))
      "grow_policy" = some (.str "lossguide") := by
  rw [dictGet_dictSet_ne _ "max_leaves" "grow_policy" _ (by decide),
    dictGet_dictSet_self]

theorem cfgBase_max_leaves (params : Params) :
    dictGet (dictSet (dictSet (dictSet params "max_depth" (.num 0))
      "grow_policy" (.str "lossguide")) "max_leaves" (.num (2 ^ 6)))
      "max_leaves" = some (.num (2 ^ 6)) := dictGet_dictSet_self _ _ _

theorem cfgBase_other (params : Params) (k : String)
    (h1 : k ≠ "max_depth") (h2 : k ≠ "grow_policy") (h3 : k ≠ "max_leaves") :
    dictGet (dictSet (dictSet (dictSet params "max_depth" (.num 0))
      "grow_policy" (.str "lossguide")) "max_leaves" (.num (2 ^ 6))) k =
      dictGet params k := by
  rw [dictGet_dictSet_ne _ "max_leaves" k _ h3,
    dictGet_dictSet_ne _ "grow_policy" k _ h2,
    dictGet_dictSet_ne _ "max_depth" k _ h1]

/-- C6 (amended: the multiclass class count comes from the maximum of the
test-subset labels, not of the full label vector): `configure_xgboost`
always sets `max_depth = 0` (unconstrained depth), the leaf-wise
`grow_policy = "lossguide"`, a leaf cap `max_leaves = 2^6`, the objective
selected by the task kind, and, for the multiclass task only,
`num_class = np.max(y_test) + 1`. -/
theorem C6_hyperparameters (d : Data) (params : Params)
    (h : d.task = "Regression" ∨ d.task = "Multiclass classification" ∨
      d.task = "Classification") :
    ∃ p, configure_xgboost d params = .ok p ∧
      dictGet p "max_depth" = some (.num 0) ∧
      dictGet p "grow_policy" = some (.str "lossguide") ∧
      dictGet p "max_leaves" = some (.num (2 ^ 6)) ∧
      (d.task = "Regression" →
        dictGet p "objective" = some (.str "reg:linear") ∧
        dictGet p "num_class" = dictGet params "num_class") ∧
      (d.task = "Multiclass classification" →
        dictGet p "objective" = some (.str "multi:softmax") ∧
        dictGet p "num_class" = some (.num (npMax d.y_test + 1))) ∧
      (d.task = "Classification" →
        dictGet p "objective" = some (.str "binary:logistic") ∧
        dictGet p "num_class" = dictGet params "num_class") := by
  rcases h with hT | hT | hT
  · refine ⟨dictSet (dictSet (dictSet (dictSet params "max_depth" (.num 0))
      "grow_policy" (.str "lossguide")) "max_leaves" (.num (2 ^ 6)))
      "objective" (.str "reg:linear"), ?_, ?_, ?_, ?_, ?_, ?_, ?_⟩
    · simp [configure_xgboost, hT]
    · rw [dictGet_dictSet_ne _ "objective" "max_depth" _ (by decide)]
      exact cfgBase_max_depth params
    · rw [dictGet_dictSet_ne _ "objective" "grow_policy" _ (by decide)]
      exact cfgBase_grow_policy params
    · rw [dictGet_dictSet_ne _ "objective" "max_leaves" _ (by decide)]
      exact cfgBase_max_leaves params
    · intro _
      refine ⟨dictGet_dictSet_self _ _ _, ?_⟩
      rw [dictGet_dictSet_ne _ "objective" "num_class" _ (by decide)]
      exact cfgBase_other params "num_class" (by decide) (by decide)
        (by decide)
    · intro hT'
      exact absurd (hT.symm.trans hT') (by decide)
    · intro hT'
      exact absurd (hT.symm.trans hT') (by decide)
  · refine ⟨dictSet (dictSet (dictSet (dictSet (dictSet params "max_depth"
      (.num 0)) "grow_policy" (.str "lossguide")) "max_leaves"
      (.num (2 ^ 6))) "objective" (.str "multi:softmax")) "num_class"
      (.num (npMax d.y_test + 1)), ?_, ?_, ?_, ?_, ?_, ?_, ?_⟩
    · simp [configure_xgboost, hT]
    · rw [dictGet_dictSet_ne _ "num_class" "max_depth" _ (by decide),
        dictGet_dictSet_ne _ "objective" "max_depth" _ (by decide)]
      exact cfgBase_max_depth params
    · rw [dictGet_dictSet_ne _ "num_class" "grow_policy" _ (by decide),
        dictGet_dictSet_ne _ "objective" "grow_policy" _ (by decide)]
      exact cfgBase_grow_policy params
    · rw [dictGet_dictSet_ne _ "num_class" "max_leaves" _ (by decide),
        dictGet_dictSet_ne _ "objective" "max_leaves" _ (by decide)]
      exact cfgBase_max_leaves params
    · intro hT'
      exact absurd (hT.symm.trans hT') (by decide)
    · intro _
      refine ⟨?_, dictGet_dictSet_self _ _ _⟩
      rw [dictGet_dictSet_ne _ "num_class" "objective" _ (by decide)]
      exact dictGet_dictSet_self _ _ _
    · intro hT'
      exact absurd (hT.symm.trans hT') (by decide)
  · refine ⟨dictSet (dictSet (dictSet (dictSet params "max_depth" (.num 0))
      "grow_policy" (.str "lossguide")) "max_leaves" (.num (2 ^ 6)))
      "objective" (.str "binary:logistic"), ?_, ?_, ?_, ?_, ?_, ?_, ?_⟩
    · simp [configure_xgboost, hT]
    · rw [dictGet_dictSet_ne _ "objective" "max_depth" _ (by decide)]
      exact cfgBase_max_depth params
    · rw [dictGet_dictSet_ne _ "objective" "grow_policy" _ (by decide)]
      exact cfgBase_grow_policy params
    · rw [dictGet_dictSet_ne _ "objective" "max_leaves" _ (by decide)]
      exact cfgBase_max_leaves params
    · intro hT'
      exact absurd (hT.symm.trans hT') (by decide)
    · intro hT'
      exact absurd (hT.symm.trans hT') (by decide)
    · intro _
      refine ⟨dictGet_dictSet_self _ _ _, ?_⟩
      rw [dictGet_dictSet_ne _ "objective" "num_class" _ (by decide)]
      exact cfgBase_other params "num_class" (by decide) (by decide)
        (by decide)

/-- C6 witness: the amended hyperparameter claim instantiated on a concrete
multiclass dataset. -/
theorem C6_hyperparameters_witness :
    ∃ p, configure_xgboost mcData [] = .ok p ∧
      dictGet p "max_depth" = some (.num 0) ∧
      dictGet p "grow_policy" = some (.str "lossguide") ∧
      dictGet p "max_leaves" = some (.num (2 ^ 6)) ∧
      (mcData.task = "Regression" →
        dictGet p "objective" = some (.str "reg:linear") ∧
        dictGet p "num_class" = dictGet [] "num_class") ∧
      (mcData.task = "Multiclass classification" →
        dictGet p "objective" = some (.str "multi:softmax") ∧
        dictGet p "num_class" = some (.num (npMax mcData.y_test + 1))) ∧
      (mcData.task = "Classification" →
        dictGet p "objective" = some (.str "binary:logistic") ∧
        dictGet p "num_class" = dictGet [] "num_class") :=
  C6_hyperparameters mcData [] (Or.inr (Or.inl rfl))

/-- C6 counterexample to the claim as stated: on the 5-row dataset
`[0, 1, 2, 3, 4]` split with the default fractions, the test subset is
`[3]`, so the code sets `num_class = 4`, while one plus the maximum label
of the dataset's full label vector is `5`. -/
theorem C6_num_class_counterexample :
    (Data.init [0, 1, 2, 3, 4] "Cover Type" "Multiclass classification"
        "Accuracy" (3/5) (1/5) (1/5) 0 0).bind
      (fun d => (configure_xgboost d [("tree_method", .str "hist")]).map
        (fun p => (dictGet p "num_class", npMax d.labels + 1))) =
      .ok (some (.num 4), 5) ∧ PVal.num 4 ≠ PVal.num 5 := by
  constructor
  · rw [Data.init_ok_of_sum_one _ _ _ _ _ _ _ _ _ (by norm_num)]
    rw [train_test_split_eval [0, 1, 2, 3, 4] [3, 2, 1, 0, 4]
      (1/5) random_seed 0 1 (by decide)
      (nTestSamples_eq _ _ _ (by norm_num))]
    dsimp only
    rw [train_test_split_eval (([3, 2, 1, 0, 4] : List ℚ).drop 1)
      [4, 0, 1, 2] ((1/5) / (3/5)) random_seed 0 2 (by decide)
      (nTestSamples_eq _ _ _
        (ceil_eq_of_bounds _ _ (by norm_num) (by norm_num)))]
    simp only [Except.bind, Except.map, configure_xgboost, Data.labels]
    norm_num [dictSet, alSet, dictGet, alGet, npMax, max_def]
    decide
  · intro hcon
    have : (4 : ℚ) = 5 := PVal.num.inj hcon
    norm_num at this

/-- C3: `add_data` on a table where the dataset's two columns do not yet
exist creates `(name, "Time(s)")` and `(name, metric)` at the end of the
column list, zero-fills them for every pre-existing row, and sets the
algorithm row's two cells to the elapsed time and the metric value.  A
second insertion for a different algorithm under the same dataset hits the
column-already-exists failure, which is swallowed: the columns are not
duplicated, the second algorithm's cells are set, and the first
algorithm's cells are unchanged. -/
theorem C3_add_data_behavior (df : DF) (alg1 alg2 : String) (d : Data)
    (t1 m1 t2 m2 : PyFloat)
    (htc : (d.name, "Time(s)") ∉ df.cols)
    (hmc : (d.name, d.metric) ∉ df.cols)
    (hTm : d.metric ≠ "Time(s)")
    (halg : alg1 ≠ alg2)
    (hclean : ∀ r ∈ df.index,
      df.lookupCell r (d.name, "Time(s)") = none ∧
      df.lookupCell r (d.name, d.metric) = none) :
    (add_data df alg1 d t1 m1).cols =
      df.cols ++ [(d.name, "Time(s)"), (d.name, d.metric)] ∧
    (∀ r ∈ df.index, r ≠ alg1 →
      (add_data df alg1 d t1 m1).lookupCell r (d.name, "Time(s)") =
        some (.lit 0) ∧
      (add_data df alg1 d t1 m1).lookupCell r (d.name, d.metric) =
        some (.lit 0)) ∧
    (add_data df alg1 d t1 m1).lookupCell alg1 (d.name, "Time(s)") =
      some t1 ∧
    (add_data df alg1 d t1 m1).lookupCell alg1 (d.name, d.metric) =
      some m1 ∧
    (add_data df alg1 d t1 m1).insertCol
      (add_data df alg1 d t1 m1).cols.length (d.name, "Time(s)")
      (.lit 0) = .error "cannot insert, already exists" ∧
    (add_data (add_data df alg1 d t1 m1) alg2 d t2 m2).cols =
      (add_data df alg1 d t1 m1).cols ∧
    (add_data (add_data df alg1 d t1 m1) alg2 d t2 m2).lookupCell alg2
      (d.name, "Time(s)") = some t2 ∧
    (add_data (add_data df alg1 d t1 m1) alg2 d t2 m2).lookupCell alg2
      (d.name, d.metric) = some m2 ∧
    (add_data (add_data df alg1 d t1 m1) alg2 d t2 m2).lookupCell alg1
      (d.name, "Time(s)") = some t1 ∧
    (add_data (add_data df alg1 d t1 m1) alg2 d t2 m2).lookupCell alg1
      (d.name, d.metric) = some m1 := by
  have hA := add_data_of_fresh df alg1 d t1 m1 htc hmc hTm
  have hmc_tc : ∀ r : String, ((r, d.name, d.metric) : CellKey) ≠
      (r, d.name, "Time(s)") :=
    fun r hcon => hTm (congrArg (fun k : CellKey => k.2.2) hcon)
  have htc_mc : ∀ r : String, ((r, d.name, "Time(s)") : CellKey) ≠
      (r, d.name, d.metric) :=
    fun r hcon => hTm (congrArg (fun k : CellKey => k.2.2) hcon).symm
  have hrow : ∀ (a b : String) (x y : String × String), a ≠ b →
      ((a, x.1, x.2) : CellKey) ≠ (b, y.1, y.2) :=
    fun a b x y hab hcon => hab (congrArg (fun k : CellKey => k.1) hcon)
  have hcolne : ((d.name, "Time(s)") : String × String) ≠
      (d.name, d.metric) :=
    fun hcon => hTm (congrArg Prod.snd hcon).symm
  have htcB : ((d.name, "Time(s)") : String × String) ∈
      df.cols ++ [(d.name, "Time(s)"), (d.name, d.metric)] := by simp
  have hmcB : ((d.name, d.metric) : String × String) ∈
      df.cols ++ [(d.name, "Time(s)"), (d.name, d.metric)] := by simp
  have hcols1 : (add_data df alg1 d t1 m1).cols =
      df.cols ++ [(d.name, "Time(s)"), (d.name, d.metric)] := by
    rw [hA]
    simp [DF.atSet, htcB, hmcB]
  have hL2 : (add_data df alg1 d t1 m1).lookupCell alg1
      (d.name, "Time(s)") = some t1 := by
    rw [hA, DF.lookupCell_atSet_ne _ _ _ _ _ _ (htc_mc alg1)]
    exact DF.lookupCell_atSet_self _ _ _ _
  have hL1 : (add_data df alg1 d t1 m1).lookupCell alg1
      (d.name, d.metric) = some m1 := by
    rw [hA]
    exact DF.lookupCell_atSet_self _ _ _ _
  have hrows : ∀ r ∈ df.index, r ≠ alg1 →
      (add_data df alg1 d t1 m1).lookupCell r (d.name, "Time(s)") =
        some (.lit 0) ∧
      (add_data df alg1 d t1 m1).lookupCell r (d.name, d.metric) =
        some (.lit 0) := by
    intro r hr hralg
    constructor
    · rw [hA, DF.lookupCell_atSet_ne _ _ _ _ _ _ (hrow r alg1 _ _ hralg),
        DF.lookupCell_atSet_ne _ _ _ _ _ _ (hrow r alg1 _ _ hralg)]
      show alGet _ _ = _
      rw [alGet_append_of_some]
      rw [alGet_append_of_none _ _ _ (hclean r hr).1]
      exact alGet_rowFill_mem df.index d.name "Time(s)" (.lit 0) r hr
    · rw [hA, DF.lookupCell_atSet_ne _ _ _ _ _ _ (hrow r alg1 _ _ hralg),
        DF.lookupCell_atSet_ne _ _ _ _ _ _ (hrow r alg1 _ _ hralg)]
      show alGet _ _ = _
      rw [alGet_append_of_none]
      · exact alGet_rowFill_mem df.index d.name d.metric (.lit 0) r hr
      · rw [alGet_append_of_none _ _ _ (hclean r hr).2]
        exact alGet_rowFill_ne_col df.index d.name "Time(s)" d.name
          d.metric (.lit 0) r hcolne
  have htc1 : ((d.name, "Time(s)") : String × String) ∈
      (add_data df alg1 d t1 m1).cols := by
    rw [hcols1]
    exact htcB
  have hmc1 : ((d.name, d.metric) : String × String) ∈
      (add_data df alg1 d t1 m1).cols := by
    rw [hcols1]
    exact hmcB
  have hB := add_data_of_time_col_mem (add_data df alg1 d t1 m1) alg2 d
    t2 m2 htc1
  have hcols2 : (add_data (add_data df alg1 d t1 m1) alg2 d t2 m2).cols =
      (add_data df alg1 d t1 m1).cols := by
    rw [hB]
    simp [DF.atSet, htc1, hmc1]
  refine ⟨hcols1, hrows, hL2, hL1,
    DF.insertCol_err_of_mem _ _ _ _ htc1, hcols2, ?_, ?_, ?_, ?_⟩
  · rw [hB, DF.lookupCell_atSet_ne _ _ _ _ _ _ (htc_mc alg2)]
    exact DF.lookupCell_atSet_self _ _ _ _
  · rw [hB]
    exact DF.lookupCell_atSet_self _ _ _ _
  · rw [hB, DF.lookupCell_atSet_ne _ _ _ _ _ _ (hrow alg1 alg2 _ _ halg),
      DF.lookupCell_atSet_ne _ _ _ _ _ _ (hrow alg1 alg2 _ _ halg)]
    exact hL2
  · rw [hB, DF.lookupCell_atSet_ne _ _ _ _ _ _ (hrow alg1 alg2 _ _ halg),
      DF.lookupCell_atSet_ne _ _ _ _ _ _ (hrow alg1 alg2 _ _ halg)]
    exact hL1

/-- C3 witness: the table contract instantiated at the spec's example —
`(1.23, 0.95)` for `"xgb-cpu-hist"` under `"Synthetic"`, then a second
insertion for `"xgb-gpu-hist"`. -/
theorem C3_add_data_behavior_witness :
    (add_data c3df "xgb-cpu-hist" c3d (.lit (123/100)) (.lit (19/20))).cols =
      c3df.cols ++ [(c3d.name, "Time(s)"), (c3d.name, c3d.metric)] ∧
    (∀ r ∈ c3df.index, r ≠ "xgb-cpu-hist" →
      (add_data c3df "xgb-cpu-hist" c3d (.lit (123/100))
        (.lit (19/20))).lookupCell r (c3d.name, "Time(s)") =
        some (.lit 0) ∧
      (add_data c3df "xgb-cpu-hist" c3d (.lit (123/100))
        (.lit (19/20))).lookupCell r (c3d.name, c3d.metric) =
        some (.lit 0)) ∧
    (add_data c3df "xgb-cpu-hist" c3d (.lit (123/100))
      (.lit (19/20))).lookupCell "xgb-cpu-hist" (c3d.name, "Time(s)") =
      some (.lit (123/100)) ∧
    (add_data c3df "xgb-cpu-hist" c3d (.lit (123/100))
      (.lit (19/20))).lookupCell "xgb-cpu-hist" (c3d.name, c3d.metric) =
      some (.lit (19/20)) ∧
    (add_data c3df "xgb-cpu-hist" c3d (.lit (123/100))
      (.lit (19/20))).insertCol
      (add_data c3df "xgb-cpu-hist" c3d (.lit (123/100))
        (.lit (19/20))).cols.length (c3d.name, "Time(s)") (.lit 0) =
      .error "cannot insert, already exists" ∧
    (add_data (add_data c3df "xgb-cpu-hist" c3d (.lit (123/100))
      (.lit (19/20))) "xgb-gpu-hist" c3d (.lit 2) (.lit (9/10))).cols =
      (add_data c3df "xgb-cpu-hist" c3d (.lit (123/100))
        (.lit (19/20))).cols ∧
    (add_data (add_data c3df "xgb-cpu-hist" c3d (.lit (123/100))
      (.lit (19/20))) "xgb-gpu-hist" c3d (.lit 2)
      (.lit (9/10))).lookupCell "xgb-gpu-hist" (c3d.name, "Time(s)") =
      some (.lit 2) ∧
    (add_data (add_data c3df "xgb-cpu-hist" c3d (.lit (123/100))
      (.lit (19/20))) "xgb-gpu-hist" c3d (.lit 2)
      (.lit (9/10))).lookupCell "xgb-gpu-hist" (c3d.name, c3d.metric) =
      some (.lit (9/10)) ∧
    (add_data (add_data c3df "xgb-cpu-hist" c3d (.lit (123/100))
      (.lit (19/20))) "xgb-gpu-hist" c3d (.lit 2)
      (.lit (9/10))).lookupCell "xgb-cpu-hist" (c3d.name, "Time(s)") =
      some (.lit (123/100)) ∧
    (add_data (add_data c3df "xgb-cpu-hist" c3d (.lit (123/100))
      (.lit (19/20))) "xgb-gpu-hist" c3d (.lit 2)
      (.lit (9/10))).lookupCell "xgb-cpu-hist" (c3d.name, c3d.metric) =
      some (.lit (19/20)) :=
  C3_add_data_behavior c3df "xgb-cpu-hist" "xgb-gpu-hist" c3d
    (.lit (123/100)) (.lit (19/20)) (.lit 2) (.lit (9/10))
    (by decide) (by decide) (by decide) (by decide) (by decide)

/-- C10 (implicit): the bare `except: pass` around the two column inserts
swallows any failure of either insert, and because both inserts share the
one handler, a failure of the first insert also skips the second: with the
time column already present and the metric column absent, `add_data`
reduces to just the two cell writes (the error from the failing first
insert is discarded and never propagated), so other rows get no zero
default in the metric column, which enters the table only through the
cell-write enlargement. -/
theorem C10_bare_except_handler (df : DF) (alg r : String) (d : Data)
    (t m : PyFloat)
    (h1 : (d.name, "Time(s)") ∈ df.cols)
    (h2 : (d.name, d.metric) ∉ df.cols)
    (hTm : d.metric ≠ "Time(s)")
    (halg : r ≠ alg)
    (hr : r ∈ df.index)
    (hstale : df.lookupCell r (d.name, d.metric) = none) :
    df.insertCol df.cols.length (d.name, "Time(s)") (.lit 0) =
      .error "cannot insert, already exists" ∧
    add_data df alg d t m =
      (df.atSet alg (d.name, "Time(s)") t).atSet alg (d.name, d.metric) m ∧
    (add_data df alg d t m).lookupCell r (d.name, d.metric) = none ∧
    (d.name, d.metric) ∈ (add_data df alg d t m).cols ∧
    (add_data df alg d t m).lookupCell alg (d.name, "Time(s)") = some t ∧
    (add_data df alg d t m).lookupCell alg (d.name, d.metric) = some m := by
  have hB := add_data_of_time_col_mem df alg d t m h1
  have htc_mc : ∀ x : String, ((x, d.name, "Time(s)") : CellKey) ≠
      (x, d.name, d.metric) :=
    fun x hcon => hTm (congrArg (fun k : CellKey => k.2.2) hcon).symm
  have hrow : ∀ (a b : String) (x y : String × String), a ≠ b →
      ((a, x.1, x.2) : CellKey) ≠ (b, y.1, y.2) :=
    fun a b x y hab hcon => hab (congrArg (fun k : CellKey => k.1) hcon)
  refine ⟨DF.insertCol_err_of_mem _ _ _ _ h1, hB, ?_, ?_, ?_, ?_⟩
  · rw [hB, DF.lookupCell_atSet_ne _ _ _ _ _ _ (hrow r alg _ _ halg),
      DF.lookupCell_atSet_ne _ _ _ _ _ _ (hrow r alg _ _ halg)]
    exact hstale
  · rw [hB]
    simp [DF.atSet, h1, h2]
  · rw [hB, DF.lookupCell_atSet_ne _ _ _ _ _ _ (htc_mc alg)]
    exact DF.lookupCell_atSet_self _ _ _ _
  · rw [hB]
    exact DF.lookupCell_atSet_self _ _ _ _

/-- C10 witness: the shared-handler behavior instantiated on a concrete
table whose time column already exists. -/
theorem C10_bare_except_handler_witness :
    c10df.insertCol c10df.cols.length (c3d.name, "Time(s)") (.lit 0) =
      .error "cannot insert, already exists" ∧
    add_data c10df "xgb-gpu-hist" c3d (.lit 3) (.lit (1/2)) =
      (c10df.atSet "xgb-gpu-hist" (c3d.name, "Time(s)")
        (.lit 3)).atSet "xgb-gpu-hist" (c3d.name, c3d.metric)
        (.lit (1/2)) ∧
    (add_data c10df "xgb-gpu-hist" c3d (.lit 3)
      (.lit (1/2))).lookupCell "old" (c3d.name, c3d.metric) = none ∧
    (c3d.name, c3d.metric) ∈
      (add_data c10df "xgb-gpu-hist" c3d (.lit 3) (.lit (1/2))).cols ∧
    (add_data c10df "xgb-gpu-hist" c3d (.lit 3)
      (.lit (1/2))).lookupCell "xgb-gpu-hist" (c3d.name, "Time(s)") =
      some (.lit 3) ∧
    (add_data c10df "xgb-gpu-hist" c3d (.lit 3)
      (.lit (1/2))).lookupCell "xgb-gpu-hist" (c3d.name, c3d.metric) =
      some (.lit (1/2)) :=
  C10_bare_except_handler c10df "xgb-gpu-hist" "old" c3d (.lit 3)
    (.lit (1/2)) (by decide) (by decide) (by decide) (by decide)
    (by decide) (by decide)

theorem train_cpu_ok_shape (bst : TrainOracle) (d : Data) (df : DF)
    (args : Args) (df' : DF)
    (h : train_xgboost_cpu bst d df args = .ok df') :
    ∃ el me, df' = add_data df "xgb-cpu-hist" d (.lit el) me := by
  unfold train_xgboost_cpu run_xgboost at h
  cases hc : configure_xgboost d [("tree_method", .str "hist")] with
  | error e =>
    rw [hc] at h
    simp [Bind.bind, Except.bind] at h
  | ok p =>
    rw [hc] at h
    simp only [Bind.bind, Except.bind] at h
    cases he : eval d (bst p args.num_rounds).2 with
    | error e =>
      rw [he] at h
      simp at h
    | ok me =>
      rw [he] at h
      simp at h
      exact ⟨(bst p args.num_rounds).1, me, h.symm⟩

theorem train_gpu_ok_shape (bst : TrainOracle) (d : Data) (df : DF)
    (args : Args) (df' : DF)
    (h : train_xgboost_gpu bst d df args = .ok df') :
    ∃ el me, df' = add_data df "xgb-gpu-hist" d (.lit el) me := by
  unfold train_xgboost_gpu run_xgboost at h
  cases hc : configure_xgboost d [("tree_method", .str "gpu_hist")] with
  | error e =>
    rw [hc] at h
    simp [Bind.bind, Except.bind] at h
  | ok p =>
    rw [hc] at h
    simp only [Bind.bind, Except.bind] at h
    cases he : eval d (bst p args.num_rounds).2 with
    | error e =>
      rw [he] at h
      simp at h
    | ok me =>
      rw [he] at h
      simp at h
      exact ⟨(bst p args.num_rounds).1, me, h.symm⟩

/-- C9: the CPU and GPU trainers are the same four-step procedure up to
backend selection.  Both equal the generic `trainerSpec` at their backend
string and label; the hyperparameter dicts they build agree at every key
except `tree_method`, which is `'hist'` for CPU and `'gpu_hist'` for GPU;
and on success each appends exactly one row to the shared table under its
fixed algorithm label. -/
theorem C9_trainer_equivalence :
    (∀ (bst : TrainOracle) (d : Data) (df : DF) (args : Args),
      train_xgboost_cpu bst d df args =
        trainerSpec "hist" "xgb-cpu-hist" bst d df args ∧
      train_xgboost_gpu bst d df args =
        trainerSpec "gpu_hist" "xgb-gpu-hist" bst d df args) ∧
    (∀ (d : Data) (x y : String) (p q : Params),
      configure_xgboost d [("tree_method", .str x)] = .ok p →
      configure_xgboost d [("tree_method", .str y)] = .ok q →
      dictGet p "tree_method" = some (.str x) ∧
      dictGet q "tree_method" = some (.str y) ∧
      ∀ k, k ≠ "tree_method" → dictGet p k = dictGet q k) ∧
    (∀ (bst : TrainOracle) (d : Data) (df : DF) (args : Args) (df' : DF),
      train_xgboost_cpu bst d df args = .ok df' →
      ∃ el me, df' = add_data df "xgb-cpu-hist" d (.lit el) me) ∧
    (∀ (bst : TrainOracle) (d : Data) (df : DF) (args : Args) (df' : DF),
      train_xgboost_gpu bst d df args = .ok df' →
      ∃ el me, df' = add_data df "xgb-gpu-hist" d (.lit el) me) := by
  refine ⟨fun bst d df args => ⟨rfl, rfl⟩, ?_, train_cpu_ok_shape,
    train_gpu_ok_shape⟩
  intro d x y p q hp hq
  unfold configure_xgboost at hp hq
  split_ifs at hp hq with h1 h2 h3
  · rw [Except.ok.injEq] at hp hq
    subst hp
    subst hq
    refine ⟨?_, ?_, ?_⟩
    · simp [dictSet, alSet, dictGet, alGet]
    · simp [dictSet, alSet, dictGet, alGet]
    · intro k hk
      have hk' : ¬("tree_method" = k) := fun hcon => hk hcon.symm
      simp [dictSet, alSet, dictGet, alGet, hk']
  · rw [Except.ok.injEq] at hp hq
    subst hp
    subst hq
    refine ⟨?_, ?_, ?_⟩
    · simp [dictSet, alSet, dictGet, alGet]
    · simp [dictSet, alSet, dictGet, alGet]
    · intro k hk
      have hk' : ¬("tree_method" = k) := fun hcon => hk hcon.symm
      simp [dictSet, alSet, dictGet, alGet, hk']
  · rw [Except.ok.injEq] at hp hq
    subst hp
    subst hq
    refine ⟨?_, ?_, ?_⟩
    · simp [dictSet, alSet, dictGet, alGet]
    · simp [dictSet, alSet, dictGet, alGet]
    · intro k hk
      have hk' : ¬("tree_method" = k) := fun hcon => hk hcon.symm
      simp [dictSet, alSet, dictGet, alGet, hk']

/-- C9 witness: on a concrete regression dataset the two configured dicts
carry their own backend under `tree_method` and agree at `max_depth`. -/
theorem C9_trainer_equivalence_witness :
    dictGet pCpu "tree_method" = some (.str "hist") ∧
    dictGet pGpu "tree_method" = some (.str "gpu_hist") ∧
    dictGet pCpu "max_depth" = dictGet pGpu "max_depth" := by
  have hp : configure_xgboost c3d [("tree_method", PVal.str "hist")] =
      .ok pCpu := by
    simp [configure_xgboost, c3d, dictSet, alSet, pCpu]
  have hq : configure_xgboost c3d [("tree_method", PVal.str "gpu_hist")] =
      .ok pGpu := by
    simp [configure_xgboost, c3d, dictSet, alSet, pGpu]
  have h := C9_trainer_equivalence.2.1 c3d "hist" "gpu_hist" pCpu pGpu hp hq
  exact ⟨h.1, h.2.1, h.2.2 "max_depth" (by decide)⟩

theorem Data.init_ok_name (y : List ℚ) (n t m : String) (tr vl te : ℚ)
    (e1 e2 : Nat) (d : Data)
    (h : Data.init y n t m tr vl te e1 e2 = .ok d) : d.name = n := by
  by_cases hsum : tr + vl + te = 1
  · rw [Data.init_ok_of_sum_one y n t m tr vl te e1 e2 hsum] at h
    rw [Except.ok.injEq] at h
    rw [← h]
  · simp only [Data.init, if_neg hsum] at h
    exact Except.noConfusion h

theorem run_ok_shape (bst : TrainOracle) (e : Experiment) (df : DF)
    (args : Args) (df' : DF) (h : e.run bst df args = .ok df') :
    ∃ data e1 m1 e2 m2, data.name = e.name ∧
      df' = add_data (add_data df "xgb-cpu-hist" data (.lit e1) m1)
        "xgb-gpu-hist" data (.lit e2) m2 := by
  unfold Experiment.run at h
  dsimp only at h
  cases hi : Data.init (e.data_func args.rows) e.name e.task e.metric
      defaultSizes.1 defaultSizes.2.1 defaultSizes.2.2 0 0 with
  | error er =>
    rw [hi] at h
    simp [Bind.bind, Except.bind] at h
  | ok data =>
    rw [hi] at h
    simp only [Bind.bind, Except.bind] at h
    cases hcpu : train_xgboost_cpu bst data df args with
    | error er =>
      rw [hcpu] at h
      simp at h
    | ok df1 =>
      rw [hcpu] at h
      simp only at h
      obtain ⟨e1, m1, h1⟩ := train_cpu_ok_shape bst data df args df1 hcpu
      obtain ⟨e2, m2, h2⟩ := train_gpu_ok_shape bst data df1 args df' h
      exact ⟨data, e1, m1, e2, m2,
        Data.init_ok_name _ _ _ _ _ _ _ _ _ _ hi, by rw [h2, h1]⟩

/-- C2: the driver selects exactly the registry experiments whose display
name is a substring of the `--datasets` option string; the default option
value (all names joined with commas) selects all six experiments, and
`"Higgs"` selects exactly the Higgs experiment.  Each selected experiment
that runs to completion contributes exactly two rows to the shared table:
the CPU trainer's row and then the GPU trainer's row. -/
theorem C2_driver_filter (L : Loaders) (ds : String) :
    (∀ e, e ∈ selectExperiments L ds ↔
      e ∈ experiments L ∧ strContainsB ds e.name = true) ∧
    (selectExperiments L (all_dataset_names L)).map Experiment.name =
      ["YearPredictionMSD", "Synthetic", "Higgs", "Cover Type", "Bosch",
        "Airline"] ∧
    (selectExperiments L "Higgs").map Experiment.name = ["Higgs"] ∧
    (∀ (bst : TrainOracle) (args : Args) (e : Experiment) (df df' : DF),
      e ∈ selectExperiments L args.datasets →
      e.run bst df args = .ok df' →
      ∃ data e1 m1 e2 m2, data.name = e.name ∧
        df' = add_data (add_data df "xgb-cpu-hist" data (.lit e1) m1)
          "xgb-gpu-hist" data (.lit e2) m2) :=
  ⟨fun _ => List.mem_filter,
    rfl,
    rfl,
    fun bst args e df df' _ h => run_ok_shape bst e df args df' h⟩

theorem wData_init :
    Data.init [0, 1, 2, 3, 4, 5, 6, 7, 8, 9] "Synthetic" "Regression"
      "RMSE" (3/5) (1/5) (1/5) 0 0 = .ok wData := by
  rw [Data.init_ok_of_sum_one _ _ _ _ _ _ _ _ _ (by norm_num)]
  rw [train_test_split_eval [0, 1, 2, 3, 4, 5, 6, 7, 8, 9]
    [3, 9, 1, 4, 2, 6, 5, 7, 8, 0] (1/5) random_seed 0 2 (by decide)
    (nTestSamples_eq _ _ _ (by norm_num))]
  dsimp only
  rw [train_test_split_eval (([3, 9, 1, 4, 2, 6, 5, 7, 8, 0] :
      List ℚ).drop 2) [0, 5, 4, 8, 7, 1, 6, 2] ((1/5) / (3/5))
    random_seed 0 3 (by decide)
    (nTestSamples_eq _ _ _
      (ceil_eq_of_bounds _ _ (by norm_num) (by norm_num)))]
  decide

theorem wData_mse : mean_squared_error [3, 9] [0, 0] = 45 := by
  norm_num [mean_squared_error, List.zipWith]

theorem wData_eval : eval wData [0, 0] = .ok (.sqrt 45) := by
  simp [eval, wData, wData_mse]

theorem wData_cfg_cpu :
    configure_xgboost wData [("tree_method", PVal.str "hist")] =
      .ok [("tree_method", .str "hist"), ("max_depth", .num 0),
        ("grow_policy", .str "lossguide"), ("max_leaves", .num (2 ^ 6)),
        ("objective", .str "reg:linear")] := by
  simp [configure_xgboost, wData, dictSet, alSet]

theorem wData_cfg_gpu :
    configure_xgboost wData [("tree_method", PVal.str "gpu_hist")] =
      .ok [("tree_method", .str "gpu_hist"), ("max_depth", .num 0),
        ("grow_policy", .str "lossguide"), ("max_leaves", .num (2 ^ 6)),
        ("objective", .str "reg:linear")] := by
  simp [configure_xgboost, wData, dictSet, alSet]

theorem wRun_cpu :
    train_xgboost_cpu wOracle wData DF.empty wArgs = .ok wDF1 := by
  unfold train_xgboost_cpu run_xgboost
  rw [wData_cfg_cpu]
  simp only [Bind.bind, Except.bind]
  dsimp only [wOracle]
  rw [wData_eval]
  decide

theorem wRun_gpu :
    train_xgboost_gpu wOracle wData wDF1 wArgs = .ok wDF2 := by
  unfold train_xgboost_gpu run_xgboost
  rw [wData_cfg_gpu]
  simp only [Bind.bind, Except.bind]
  dsimp only [wOracle]
  rw [wData_eval]
  decide

theorem wRun :
    wExp.run wOracle DF.empty wArgs = .ok wDF2 := by
  unfold Experiment.run
  dsimp only [wExp, wLoaders, wLoad, defaultSizes]
  rw [wData_init]
  simp only [Bind.bind, Except.bind]
  rw [wRun_cpu]
  simp only
  exact wRun_gpu

/-- C2 witness: the two-row contribution instantiated on a concrete run of
the selected Synthetic experiment. -/
theorem C2_driver_filter_witness :
    ∃ data e1 m1 e2 m2, data.name = wExp.name ∧
      wDF2 = add_data (add_data DF.empty "xgb-cpu-hist" data (.lit e1) m1)
        "xgb-gpu-hist" data (.lit e2) m2 :=
  (C2_driver_filter wLoaders "Synthetic").2.2.2 wOracle wArgs wExp DF.empty
    wDF2
    (List.mem_filter.mpr
      ⟨List.mem_cons_of_mem _ (List.mem_cons_self _ _), by decide⟩)
    wRun

end GBMBench
